import Mathlib

/-!
Verification of the natural-language specification of the
`yasiir564/quran-flask-api` repository against its source (`src/app.py`)
in a shallow embedding.

The repository source under `src/` is the Quran database sync service
(`app.py`); the spec's media-extraction core (UrlNormalizer, HttpFetcher,
PayloadLocator, ContentClassifier, StreamResolver, BatchCoordinator) is
not present under `src/`, so those components are modelled from the
spec's words in the `Extractor` namespace below, each marked
`Modelled from the spec:` in its doc comment.
-/

namespace QuranApi

/-- JSON values, the data handled by the cache and the API client.
Mirrors Python's JSON-serializable values (objects, arrays, strings,
integers, booleans, null); non-integer numbers do not occur in the
claims under study. -/
inductive Json where
  | null : Json
  | bool (b : Bool) : Json
  | num (n : Int) : Json
  | str (s : String) : Json
  | arr (elems : List Json) : Json
  | obj (fields : List (String × Json)) : Json

/-! ## Cache layer (`src/app.py` lines 30–78)

`CACHE_DURATION = timedelta(hours=24)`; times are modelled in seconds.
A file's content is viewed through `json.load`: `some j` for a file that
parses to the JSON value `j`, `none` for content that fails to parse
(the external `json` library's load/dump pair is modelled by this
parse-result abstraction; `json.dump` of a serializable value followed by
`json.load` yields the same value, which is the library's documented
behavior, not code of this repository). -/

/-- Cache duration in seconds: 24 hours (`CACHE_DURATION = timedelta(hours=24)`). -/
def CACHE_DURATION : Nat := 24 * 60 * 60

/-- Cache directory name (`CACHE_DIR`), relative part only. -/
def CACHE_DIR : String := "cache"

/-- Path of the cache file for a key: `os.path.join(CACHE_DIR, f"{cache_key}.json")`. -/
def cache_file_path (cache_key : String) : String :=
  CACHE_DIR ++ "/" ++ cache_key ++ ".json"

/-- State of the cache directory: each path maps to `none` (no such file)
or `some (content, mtime)` where `content : Option Json` is the
parse-result view of the file text and `mtime` its modification time in
seconds. -/
structure CacheState where
  files : String → Option (Option Json × Nat)

/-- Embedding of `get_cached_data` (`src/app.py` lines 56–69): if the
cache file exists and `datetime.now() - file_modified_time < CACHE_DURATION`,
return the parsed content (`none` when `json.load` raises, which the
`except` swallows); otherwise return `None`. `now` is the current time in
seconds. -/
def get_cached_data (fs : CacheState) (now : Nat) (cache_key : String) : Option Json :=
  match fs.files (cache_file_path cache_key) with
  | none => none
  | some (content, mtime) =>
      if now - mtime < CACHE_DURATION then content else none

/-- Embedding of `save_to_cache` (`src/app.py` lines 71–78): write
`json.dump(data, ...)` to the key's cache file; the file's mtime becomes
the current time. The write is modelled as succeeding (the `except`
branch only logs an OS-level write failure). -/
def save_to_cache (fs : CacheState) (now : Nat) (cache_key : String) (data : Json) : CacheState :=
  ⟨fun p => if p = cache_file_path cache_key then some (some data, now) else fs.files p⟩

/-! ## API fetch layer (`src/app.py` lines 80–98, `fetch_from_api`)

One network attempt is `requests.get(url, params=params, timeout=30)`
followed by `response.raise_for_status()` and `return response.json()`.
Its possible outcomes are modelled below; `response.json()` is modelled
as returning the response body as a JSON value (body-parse failures play
no role in the claims under study). `requests.exceptions.HTTPError`
raised by `raise_for_status` on a 4xx/5xx status is a subclass of
`requests.exceptions.RequestException`, the class the `except` clause
catches. -/

/-- Outcome of a single `requests.get` call: a timeout, a
transport/network error, or a received HTTP response with its status
code and body. -/
inductive AttemptOutcome where
  | timeout : AttemptOutcome
  | connectionError : AttemptOutcome
  | httpResponse (status : Nat) (body : Json) : AttemptOutcome

/-- The `requests.exceptions.RequestException` variants relevant to
`fetch_from_api`: `Timeout`, `ConnectionError`, and `HTTPError(status)`
raised by `raise_for_status`. -/
inductive RequestError where
  | timeout : RequestError
  | connectionError : RequestError
  | httpError (status : Nat) : RequestError

/-- Per-attempt timeout in seconds passed to `requests.get`
(`timeout=30` in `src/app.py` line 88). -/
def fetch_attempt_timeout : Nat := 30

/-- Total attempt budget (`retries = 3`, `src/app.py` line 83). -/
def fetch_retries : Nat := 3

/-- Initial inter-attempt delay in seconds (`retry_delay = 2`,
`src/app.py` line 84); it is doubled after each failed attempt
(`retry_delay *= 2`). -/
def fetch_initial_retry_delay : Nat := 2

/-- One loop body of `fetch_from_api`: `requests.get` (the outcome),
then `raise_for_status` — which raises `HTTPError` exactly when
`400 <= status < 600` — then `response.json()`. -/
def runAttempt : AttemptOutcome → Except RequestError Json
  | .timeout => .error .timeout
  | .connectionError => .error .connectionError
  | .httpResponse status body =>
      if 400 ≤ status ∧ status < 600 then .error (.httpError status) else .ok body

/-- Trace of one `fetch_from_api` call: its result (`.ok body` for a
returned JSON body, `.error e` for the exception re-raised after the
last attempt), the number of attempts actually made, and the list of
`time.sleep` durations between consecutive attempts. -/
structure FetchTrace where
  result : Except RequestError Json
  attemptsUsed : Nat
  sleeps : List Nat

/-- Embedding of the `for attempt in range(retries)` loop of
`fetch_from_api` (`src/app.py` lines 86–98). `fuel` is the number of
loop iterations left (`retries - attempt`); on an exception, when
`attempt < retries - 1` (i.e. `fuel ≠ 1`) the loop sleeps `retry_delay`
seconds, doubles the delay and retries, otherwise it re-raises. The
`fuel = 0` base case is unreachable from `fetch_from_api`. -/
def fetch_from_api_go (outcomes : Nat → AttemptOutcome) (attempt retry_delay : Nat) :
    Nat → FetchTrace
  | 0 => ⟨.error .connectionError, 0, []⟩
  | fuel + 1 =>
    match runAttempt (outcomes attempt) with
    | .ok body => ⟨.ok body, 1, []⟩
    | .error e =>
      if fuel = 0 then ⟨.error e, 1, []⟩
      else
        let rest := fetch_from_api_go outcomes (attempt + 1) (retry_delay * 2) fuel
        ⟨rest.result, rest.attemptsUsed + 1, retry_delay :: rest.sleeps⟩

/-- Embedding of `fetch_from_api` (`src/app.py` lines 80–98) as a
function of the stream of per-attempt network outcomes. -/
def fetch_from_api (outcomes : Nat → AttemptOutcome) : FetchTrace :=
  fetch_from_api_go outcomes 0 fetch_initial_retry_delay fetch_retries

/-! ## Partitioned database layout (`src/app.py` lines 40–203) -/

/-- Maximum number of surahs per partition table
(`SURAHS_PER_TABLE = 50`, `src/app.py` line 41). -/
def SURAHS_PER_TABLE : Nat := 50

/-- Embedding of `get_partition_for_surah` (`src/app.py` lines 108–110):
`math.ceil(surah_number / SURAHS_PER_TABLE)` with Python's true
division. -/
def get_partition_for_surah (surah_number : Nat) : Int :=
  ⌈(surah_number : ℚ) / (SURAHS_PER_TABLE : ℚ)⌉

/-- Embedding of `get_partition_for_verse` (`src/app.py` lines 112–114):
delegates to `get_partition_for_surah`. -/
def get_partition_for_verse (surah_number : Nat) : Int :=
  get_partition_for_surah surah_number

/-- Embedding of `get_surahs_table_name` (`src/app.py` lines 100–102). -/
def get_surahs_table_name (partition : Int) : String :=
  "surahs_p" ++ toString partition

/-- Embedding of `get_verses_table_name` (`src/app.py` lines 104–106). -/
def get_verses_table_name (partition : Int) : String :=
  "verses_p" ++ toString partition

/-- Known total number of surahs (`total_surahs = 114` in the database
initialization, `src/app.py` line 125). -/
def total_surahs : Nat := 114

/-- Number of surah partitions created by the database initialization
(`num_surah_partitions = math.ceil(total_surahs / SURAHS_PER_TABLE)`,
`src/app.py` line 126). -/
def num_surah_partitions : Int :=
  ⌈(total_surahs : ℚ) / (SURAHS_PER_TABLE : ℚ)⌉

/-- Partition indices iterated by the database initialization's
`for p in range(1, num_surah_partitions + 1)` loops (`src/app.py`
lines 141 and 156). -/
def surah_partition_list : List Int :=
  (List.range num_surah_partitions.toNat).map (fun i => (i : Int) + 1)

/-- Names of the surah partition tables the database initialization
creates (`CREATE TABLE IF NOT EXISTS surahs_p{p}`). -/
def created_surah_tables : List String :=
  surah_partition_list.map get_surahs_table_name

/-- Names of the verses partition tables the database initialization
creates (`CREATE TABLE IF NOT EXISTS verses_p{p}`). -/
def created_verses_tables : List String :=
  surah_partition_list.map get_verses_table_name

end QuranApi

namespace Extractor

/-! ## Media-extraction core

The spec's §2 core components are code of this repository that is not
present under `src/`; every definition in this namespace is therefore
modelled from the spec's words (§3, §4) and marked accordingly. -/

/-- Modelled from the spec: §3 MediaItem format tag, one of
`mp4`, `m3u8`, `image`. -/
inductive MediaFormat where
  | mp4 : MediaFormat
  | m3u8 : MediaFormat
  | image : MediaFormat
deriving DecidableEq

/-- Modelled from the spec: §3 MediaItem — one playable/viewable asset:
URL, format tag, optional width/height. -/
structure MediaItem where
  url : String
  format : MediaFormat
  width : Option Nat := none
  height : Option Nat := none
deriving DecidableEq

/-- Modelled from the spec: the upstream author object as found in a
payload, each field possibly absent. -/
structure AuthorUpstream where
  id : Option String := none
  uniqueId : Option String := none
  nickname : Option String := none
  avatarUrl : Option String := none
deriving DecidableEq

/-- Modelled from the spec: §3 AuthorInfo — id, unique handle, display
name, avatar URL; all fields are plain strings (never null/absent in
output). -/
structure AuthorInfo where
  id : String
  unique_id : String
  nickname : String
  avatar : String
deriving DecidableEq

/-- Modelled from the spec: §3 AuthorInfo construction — every field
defaults to the empty string if absent upstream. -/
def mkAuthorInfo (a : AuthorUpstream) : AuthorInfo :=
  ⟨a.id.getD "", a.uniqueId.getD "", a.nickname.getD "", a.avatarUrl.getD ""⟩

/-- Modelled from the spec: §4.4 photo normalization input — each image
is either an object carrying a URL-list field with optional
width/height, or a bare URL string. -/
inductive ImageSpec where
  | withUrlList (urls : List String) (width : Option Nat) (height : Option Nat) : ImageSpec
  | bare (url : String) : ImageSpec
deriving DecidableEq

/-- Modelled from the spec: the URL a photo normalizer takes from one
image entry — the first URL of the URL-list variant, or the bare
string. -/
def ImageSpec.firstUrl : ImageSpec → String
  | .withUrlList urls _ _ => urls.headD ""
  | .bare url => url

/-- Modelled from the spec: §3 CanonicalResult — discriminated by
`type`, holding media items, author info, description, the flattened
download-URL list, and an error reason for error results. -/
structure CanonicalResult where
  type : String
  media : List MediaItem := []
  author : AuthorInfo := ⟨"", "", "", ""⟩
  desc : String := ""
  download_urls : List String := []
  error : Option String := none
deriving DecidableEq

/-- Modelled from the spec: §4.4 — the nested item struct of a desktop
payload's module map entry: an optional `images` list (photo posts), a
playback address (video posts), the author object and description. -/
structure ItemStruct where
  images : Option (List ImageSpec) := none
  playAddr : String := ""
  author : AuthorUpstream := {}
  desc : String := ""
deriving DecidableEq

/-- Modelled from the spec: §4.4 rule 1 — a desktop-shaped payload's
module map keyed by item id, as an association list. -/
structure DesktopPayload where
  itemModule : List (String × ItemStruct)
deriving DecidableEq

/-- Modelled from the spec: §4.4 photo normalization — one MediaItem
per image, preserving input order. -/
def mediaOfImage : ImageSpec → MediaItem
  | .withUrlList urls w h => ⟨urls.headD "", .image, w, h⟩
  | .bare url => ⟨url, .image, none, none⟩

/-- Modelled from the spec: §4.4 photo normalization — output one
MediaItem per image, preserving input order; download URLs mirror the
MediaItem order exactly. -/
def normalize_photo (item : ItemStruct) (imgs : List ImageSpec) : CanonicalResult :=
  let media := imgs.map mediaOfImage
  { type := "photo", media := media, author := mkAuthorInfo item.author,
    desc := item.desc, download_urls := media.map MediaItem.url }

/-- Modelled from the spec: §4.4 video normalization — the nested
playback address is the primary media URL and the first download URL
(the StreamResolver expansion and the no-watermark derivation play no
role in the claims under study and are omitted). -/
def normalize_video (item : ItemStruct) : CanonicalResult :=
  { type := "video", media := [⟨item.playAddr, .mp4, none, none⟩],
    author := mkAuthorInfo item.author, desc := item.desc,
    download_urls := [item.playAddr] }

/-- Modelled from the spec: §4.4 classification rules 1 and 5 for a
desktop-shaped payload — if the module map is present take the first
entry's item; an `images` field means a photo post, otherwise a video
post; with no recognized shape classification fails with
`UnsupportedFormat` (the story/await-store/mobile branches, rules 2–4,
are not reached by desktop module-map payloads and are not modelled). -/
def classify (p : DesktopPayload) : CanonicalResult :=
  match p.itemModule with
  | [] => { type := "error", error := some "UnsupportedFormat" }
  | (_, item) :: _ =>
    match item.images with
    | some imgs => normalize_photo item imgs
    | none => normalize_video item

/-! ## UrlNormalizer (spec §4.1) -/

/-- Modelled from the spec: a URL split into scheme, host and path
segments, the granularity at which §4.1 states its rules. -/
structure Url where
  scheme : String
  host : String
  pathSegments : List String
deriving DecidableEq

/-- Modelled from the spec: §4.1 rule 1 — the known short-link domains. -/
def short_link_hosts : List String := ["vm.tiktok.com", "vt.tiktok.com"]

/-- Modelled from the spec: §4.1 rule 2 — the mobile variant domain. -/
def mobile_host : String := "m.tiktok.com"

/-- Modelled from the spec: §4.1 rule 2 — the canonical desktop host. -/
def desktop_host : String := "www.tiktok.com"

/-- Modelled from the spec: §4.1 UrlNormalizer — rules applied in
order: (1) a short-link host is resolved by a HEAD request
(`resolveShort`, `none` on failure, falling back to the original URL);
(2) a mobile-host URL whose path has at least two segments
`handle/id` is rewritten to the canonical desktop form
`https://<desktop-host>/@handle/video/id`; (3) anything else is
returned unchanged. -/
def normalize_url (resolveShort : Url → Option Url) (u : Url) : Url :=
  if u.host ∈ short_link_hosts then
    (resolveShort u).getD u
  else if u.host = mobile_host then
    match u.pathSegments with
    | handle :: id :: _ => ⟨"https", desktop_host, ["@" ++ handle, "video", id]⟩
    | _ => u
  else u

/-- Modelled from the spec: whether a path segment begins with the
at-sign marking a handle. -/
def leading_at (s : String) : Bool :=
  match s.data with
  | c :: _ => c = '@'
  | [] => false

/-- Modelled from the spec: a URL already in canonical desktop form —
the `https://<desktop-host>/@handle/video/id` shape produced by §4.1
rule 2. -/
def is_canonical_desktop (u : Url) : Bool :=
  u.scheme = "https" && u.host = desktop_host &&
    match u.pathSegments with
    | [handle, seg, _] => leading_at handle && seg = "video"
    | _ => false

/-! ## StreamResolver (spec §4.5) -/

/-- Modelled from the spec: §4.5 — a parsed manifest is either a
variant/master manifest declaring multiple streams (each with an
optional resolution pair and a bandwidth) or a single media manifest
with its segment count. -/
inductive ParsedManifest where
  | master (streams : List (Option (Nat × Nat) × Nat)) : ParsedManifest
  | media (segmentCount : Nat) : ParsedManifest
deriving DecidableEq

/-- Modelled from the spec: §3/§4.5 Rendition — one quality variant of
an adaptive manifest. -/
structure Rendition where
  url : String
  resolution : String
  bandwidth : Nat
  segments : Nat
deriving DecidableEq

/-- Modelled from the spec: §4.5 — a declared stream's resolution is
formatted `WIDTHxHEIGHT`, or `unknown` if absent. -/
def resolution_string : Option (Nat × Nat) → String
  | some (w, h) => toString w ++ "x" ++ toString h
  | none => "unknown"

/-- Modelled from the spec: §4.5 StreamResolver — fetch the manifest
text (`fetchManifest`, `none` on any fetch error) and parse it
(`parseManifest`, `none` on any parse error); a master manifest yields
one Rendition per declared stream, a media manifest one Rendition
tagged resolution `default` carrying the segment count and the
original URL; any fetch or parse error yields the empty list, and the
function is total (never raises). -/
def resolve (fetchManifest : String → Option String)
    (parseManifest : String → Option ParsedManifest)
    (manifestUrl : String) : List Rendition :=
  match fetchManifest manifestUrl with
  | none => []
  | some text =>
    match parseManifest text with
    | none => []
    | some (.master streams) =>
        streams.map (fun s => ⟨manifestUrl, resolution_string s.1, s.2, 0⟩)
    | some (.media segs) => [⟨manifestUrl, "default", 0, segs⟩]

/-! ## BatchCoordinator (spec §4.6) -/

/-- Modelled from the spec: §4.6 — the batch input-size cap (10). -/
def BATCH_LIMIT : Nat := 10

/-- Modelled from the spec: §4.6 runBatch — an input list longer than
the cap is rejected with a client-side size-limit error before the
per-URL pipeline (and hence any network call) runs; otherwise the
pipeline is applied to every URL, preserving input order. -/
def runBatch (pipeline : String → CanonicalResult) (urls : List String) :
    Except String (List CanonicalResult) :=
  if BATCH_LIMIT < urls.length then .error "Too many URLs"
  else .ok (urls.map pipeline)

end Extractor

namespace QuranApi

/-! ## Theorems about the cache layer -/

/-- C4: for every cache key and every JSON-serializable dict, saving and
then loading while the cache file is younger than the 24-hour cache
duration returns exactly the saved dict. -/
theorem save_then_get_roundtrip (fs : CacheState) (k : String)
    (fields : List (String × Json)) (tSave tNow : Nat)
    (h : tNow - tSave < CACHE_DURATION) :
    get_cached_data (save_to_cache fs tSave k (Json.obj fields)) tNow k
      = some (Json.obj fields) := by
  simp [get_cached_data, save_to_cache, h]

/-- Witness for C4: a concrete save-then-load round trip one hour later
returns the saved object. -/
theorem save_then_get_roundtrip_witness :
    get_cached_data
      (save_to_cache ⟨fun _ => none⟩ 0 "surahs" (Json.obj [("code", Json.num 200)]))
      3600 "surahs" = some (Json.obj [("code", Json.num 200)]) :=
  save_then_get_roundtrip ⟨fun _ => none⟩ "surahs" [("code", Json.num 200)] 0 3600
    (by decide)

/-- C5: for every cache key whose file is absent, is 24 hours old or
older, or whose content fails to parse as JSON, the cache read returns
`none` (and, being a total function, never raises). -/
theorem get_cached_data_none_cases (fs : CacheState) (now : Nat) (k : String)
    (h : fs.files (cache_file_path k) = none
       ∨ (∃ m, fs.files (cache_file_path k) = some (none, m))
       ∨ (∃ c m, fs.files (cache_file_path k) = some (c, m) ∧
            CACHE_DURATION ≤ now - m)) :
    get_cached_data fs now k = none := by
  rcases h with h | ⟨m, h⟩ | ⟨c, m, h, hstale⟩
  · simp [get_cached_data, h]
  · simp [get_cached_data, h]
  · have hnot : ¬ (now - m < CACHE_DURATION) := not_lt.mpr hstale
    simp [get_cached_data, h, hnot]

/-- Witness for C5: reading a key from an empty cache directory returns
`none`. -/
theorem get_cached_data_none_cases_witness :
    get_cached_data ⟨fun _ => none⟩ 0 "editions" = none :=
  get_cached_data_none_cases ⟨fun _ => none⟩ 0 "editions" (Or.inl rfl)

/-! ## Theorems about the fetch layer -/

/-- Unfolding of the fetch loop when the current attempt succeeds. -/
theorem fetch_go_succ_ok (o : Nat → AttemptOutcome) (a d f : Nat) (body : Json)
    (h : runAttempt (o a) = .ok body) :
    fetch_from_api_go o a d (f + 1) = ⟨.ok body, 1, []⟩ := by
  simp [fetch_from_api_go, h]

/-- Unfolding of the fetch loop when the last attempt fails: the
exception is re-raised. -/
theorem fetch_go_succ_err_last (o : Nat → AttemptOutcome) (a d : Nat) (e : RequestError)
    (h : runAttempt (o a) = .error e) :
    fetch_from_api_go o a d 1 = ⟨.error e, 1, []⟩ := by
  simp [fetch_from_api_go, h]

/-- Unfolding of the fetch loop when a non-final attempt fails: sleep,
double the delay and retry. -/
theorem fetch_go_succ_err (o : Nat → AttemptOutcome) (a d f : Nat) (e : RequestError)
    (h : runAttempt (o a) = .error e) (hf : f ≠ 0) :
    fetch_from_api_go o a d (f + 1) =
      ⟨(fetch_from_api_go o (a + 1) (d * 2) f).result,
       (fetch_from_api_go o (a + 1) (d * 2) f).attemptsUsed + 1,
       d :: (fetch_from_api_go o (a + 1) (d * 2) f).sleeps⟩ := by
  simp [fetch_from_api_go, h, hf]

/-- With at least one loop iteration left, the fetch loop makes at least
one attempt. -/
theorem fetch_from_api_go_attempts_pos (o : Nat → AttemptOutcome) (a d fuel : Nat)
    (h : 1 ≤ fuel) : 1 ≤ (fetch_from_api_go o a d fuel).attemptsUsed := by
  cases fuel with
  | zero => omega
  | succ f =>
    cases hra : runAttempt (o a) with
    | ok body => rw [fetch_go_succ_ok o a d f body hra]
    | error e =>
      by_cases hf : f = 0
      · subst hf
        rw [fetch_go_succ_err_last o a d e hra]
      · rw [fetch_go_succ_err o a d f e hra hf]
        dsimp only
        omega

/-- Bounds on the fetch loop: it makes at most `fuel` attempts, every
sleep between attempts is at least the (positive) current delay's lower
bound, and an exception escapes only when every iteration has been
used. -/
theorem fetch_from_api_go_spec (o : Nat → AttemptOutcome) (fuel : Nat) :
    ∀ a d : Nat, 1 ≤ d →
      (fetch_from_api_go o a d fuel).attemptsUsed ≤ fuel ∧
      (∀ x ∈ (fetch_from_api_go o a d fuel).sleeps, 1 ≤ x) ∧
      ((∃ e, (fetch_from_api_go o a d fuel).result = .error e) →
        (fetch_from_api_go o a d fuel).attemptsUsed = fuel) := by
  induction fuel with
  | zero =>
    intro a d _
    refine ⟨Nat.le_refl 0, ?_, fun _ => rfl⟩
    intro x hx
    simp [fetch_from_api_go] at hx
  | succ f ih =>
    intro a d hd
    cases hra : runAttempt (o a) with
    | ok body =>
      rw [fetch_go_succ_ok o a d f body hra]
      refine ⟨by dsimp only; omega, ?_, ?_⟩
      · intro x hx
        simp at hx
      · rintro ⟨e, he⟩
        simp at he
    | error e =>
      by_cases hf : f = 0
      · subst hf
        rw [fetch_go_succ_err_last o a d e hra]
        refine ⟨by dsimp only; omega, ?_, fun _ => rfl⟩
        intro x hx
        simp at hx
      · rw [fetch_go_succ_err o a d f e hra hf]
        dsimp only
        obtain ⟨ih1, ih2, ih3⟩ := ih (a + 1) (d * 2) (by omega)
        refine ⟨by omega, ?_, ?_⟩
        · intro x hx
          rcases List.mem_cons.mp hx with rfl | hx
          · exact hd
          · exact ih2 x hx
        · rintro ⟨err, herr⟩
          have := ih3 ⟨err, herr⟩
          omega

/-- Counterexample for C1: the claim says a received 4xx/5xx HTTP status
is not retried, but on a first attempt answered with status 404 the
fetcher makes a second attempt (`raise_for_status` raises `HTTPError`,
a `RequestException`, which the retry loop catches). -/
theorem fetch_no_retry_on_http_status_cex :
    (fun n => if n = 0 then AttemptOutcome.httpResponse 404 Json.null
              else AttemptOutcome.httpResponse 200 Json.null) 0
      = AttemptOutcome.httpResponse 404 Json.null ∧
    (fetch_from_api (fun n => if n = 0 then AttemptOutcome.httpResponse 404 Json.null
              else AttemptOutcome.httpResponse 200 Json.null)).attemptsUsed = 2 ∧
    (2 : Nat) ≠ 1 := by
  refine ⟨rfl, rfl, by omega⟩

/-- C1 (amended): a received non-timeout HTTP error status (4xx/5xx) is
converted by `raise_for_status` into a retryable exception, so the
fetcher makes a further attempt rather than handing the response back. -/
theorem http_error_status_triggers_retry (outcomes : Nat → AttemptOutcome)
    (s : Nat) (body : Json) (h4 : 400 ≤ s) (h6 : s < 600)
    (h0 : outcomes 0 = AttemptOutcome.httpResponse s body) :
    2 ≤ (fetch_from_api outcomes).attemptsUsed := by
  have hrun : runAttempt (outcomes 0) = .error (.httpError s) := by
    rw [h0]
    simp [runAttempt, h4, h6]
  show 2 ≤ (fetch_from_api_go outcomes 0 fetch_initial_retry_delay (2 + 1)).attemptsUsed
  rw [fetch_go_succ_err outcomes 0 fetch_initial_retry_delay 2 (.httpError s) hrun
    (by omega)]
  dsimp only
  have hpos := fetch_from_api_go_attempts_pos outcomes (0 + 1)
    (fetch_initial_retry_delay * 2) 2 (by omega)
  omega

/-- Witness for the amended C1: with every attempt answered by a 404,
more than one attempt is made. -/
theorem http_error_status_triggers_retry_witness :
    2 ≤ (fetch_from_api (fun _ => AttemptOutcome.httpResponse 404 Json.null)).attemptsUsed :=
  http_error_status_triggers_retry (fun _ => AttemptOutcome.httpResponse 404 Json.null)
    404 Json.null (by omega) (by omega) rfl

/-- Counterexample for C2: the claim says each attempt is governed by a
10-second timeout, but the timeout passed to every attempt is 30
seconds. -/
theorem fetch_timeout_is_30_not_10_cex :
    fetch_attempt_timeout = 30 ∧ fetch_attempt_timeout ≠ 10 := by
  refine ⟨rfl, by decide⟩

/-- C2 (amended): every fetch makes at most 3 attempts in total, each
attempt governed by its own 30-second timeout, with at least a 1-second
delay between consecutive attempts (2 s then 4 s, exponential backoff),
and an exception escapes as the typed error only after all retries are
exhausted. -/
theorem fetch_retry_policy (outcomes : Nat → AttemptOutcome) :
    (fetch_from_api outcomes).attemptsUsed ≤ 3 ∧
    fetch_attempt_timeout = 30 ∧
    (∀ x ∈ (fetch_from_api outcomes).sleeps, 1 ≤ x) ∧
    ((∃ body, (fetch_from_api outcomes).result = .ok body) ∨
      (fetch_from_api outcomes).attemptsUsed = 3) := by
  obtain ⟨h1, h2, h3⟩ :=
    fetch_from_api_go_spec outcomes fetch_retries 0 fetch_initial_retry_delay (by decide)
  refine ⟨h1, rfl, h2, ?_⟩
  cases hres : (fetch_from_api outcomes).result with
  | ok body => exact Or.inl ⟨body, rfl⟩
  | error e => exact Or.inr (h3 ⟨e, hres⟩)

/-! ## Theorems about the partitioned database layout -/

/-- The database initialization computes three surah partitions
(`math.ceil(114 / 50) = 3`). -/
theorem num_surah_partitions_eq : num_surah_partitions = 3 := by
  unfold num_surah_partitions total_surahs SURAHS_PER_TABLE
  rw [Int.ceil_eq_iff]
  constructor <;> norm_num

/-- The partition indices iterated by the database initialization are
exactly 1, 2, 3. -/
theorem surah_partition_list_eq : surah_partition_list = [1, 2, 3] := by
  unfold surah_partition_list
  rw [num_surah_partitions_eq]
  decide

/-- The surah partition of a valid surah number is at most 3. -/
theorem get_partition_for_surah_le (n : Nat) (h : n ≤ total_surahs) :
    get_partition_for_surah n ≤ 3 := by
  unfold get_partition_for_surah SURAHS_PER_TABLE
  rw [Int.ceil_le]
  rw [div_le_iff₀ (by norm_num : (0 : ℚ) < ((50 : Nat) : ℚ))]
  have hn : (n : ℚ) ≤ 114 := by
    exact_mod_cast h
  push_cast
  linarith

/-- The surah partition of a positive surah number is at least 1. -/
theorem get_partition_for_surah_pos (n : Nat) (h : 1 ≤ n) :
    1 ≤ get_partition_for_surah n := by
  unfold get_partition_for_surah SURAHS_PER_TABLE
  have : (0 : Int) < ⌈(n : ℚ) / ((50 : Nat) : ℚ)⌉ := by
    rw [Int.lt_ceil]
    push_cast
    apply div_pos
    · exact_mod_cast h
    · norm_num
  omega

/-- C3: for every surah number between 1 and 114, the surah partition
equals the ceiling of the number divided by 50, the verse partition
equals the surah partition, the database initialization's partition
indices are exactly 1, 2, 3, the computed partition is one of them, and
the routed surah and verses table names are among the created tables. -/
theorem partition_routing (n : Nat) (h1 : 1 ≤ n) (h2 : n ≤ total_surahs) :
    get_partition_for_surah n = ⌈(n : ℚ) / 50⌉ ∧
    get_partition_for_verse n = get_partition_for_surah n ∧
    surah_partition_list = [1, 2, 3] ∧
    get_partition_for_surah n ∈ surah_partition_list ∧
    get_surahs_table_name (get_partition_for_surah n) ∈ created_surah_tables ∧
    get_verses_table_name (get_partition_for_verse n) ∈ created_verses_tables := by
  have hle := get_partition_for_surah_le n h2
  have hpos := get_partition_for_surah_pos n h1
  have hmem : get_partition_for_surah n ∈ surah_partition_list := by
    rw [surah_partition_list_eq]
    have h3 : get_partition_for_surah n = 1 ∨ get_partition_for_surah n = 2 ∨
        get_partition_for_surah n = 3 := by omega
    rcases h3 with h | h | h <;> simp [h]
  refine ⟨?_, rfl, surah_partition_list_eq, hmem, ?_, ?_⟩
  · unfold get_partition_for_surah SURAHS_PER_TABLE
    norm_num
  · exact List.mem_map_of_mem get_surahs_table_name hmem
  · exact List.mem_map_of_mem get_verses_table_name hmem

/-- Witness for C3: surah 51 routes to partition 2, a created
partition. -/
theorem partition_routing_witness :
    get_partition_for_surah 51 = ⌈(51 : ℚ) / 50⌉ ∧
    get_partition_for_verse 51 = get_partition_for_surah 51 ∧
    surah_partition_list = [1, 2, 3] ∧
    get_partition_for_surah 51 ∈ surah_partition_list ∧
    get_surahs_table_name (get_partition_for_surah 51) ∈ created_surah_tables ∧
    get_verses_table_name (get_partition_for_verse 51) ∈ created_verses_tables :=
  partition_routing 51 (by omega) (by decide)

end QuranApi

namespace Extractor

/-! ## Theorems about the spec-modelled extraction core -/

/-- The URL a photo MediaItem carries is the image entry's first URL. -/
theorem mediaOfImage_url (i : ImageSpec) : (mediaOfImage i).url = i.firstUrl := by
  cases i <;> rfl

/-- C7: for every desktop-shaped payload whose first module-map item
carries an `images` list, classification yields type `photo`, and the
download-URL list is the image URLs in input order, hence of the same
length as the image list. -/
theorem classify_photo_shape (p : DesktopPayload) (k : String) (item : ItemStruct)
    (rest : List (String × ItemStruct)) (imgs : List ImageSpec)
    (hmod : p.itemModule = (k, item) :: rest) (himgs : item.images = some imgs) :
    (classify p).type = "photo" ∧
    (classify p).download_urls = imgs.map ImageSpec.firstUrl ∧
    (classify p).download_urls.length = imgs.length := by
  have hurls : (classify p).download_urls = imgs.map ImageSpec.firstUrl := by
    simp only [classify, hmod, himgs, normalize_photo]
    rw [List.map_map]
    exact List.map_congr_left (fun i _ => mediaOfImage_url i)
  refine ⟨?_, hurls, ?_⟩
  · simp [classify, hmod, himgs, normalize_photo]
  · rw [hurls, List.length_map]

/-- Witness for C7: a two-image payload classifies as a photo with two
download URLs in input order. -/
theorem classify_photo_shape_witness :
    (classify ⟨[("7350", { images := some [ImageSpec.bare "https://cdn/a.jpg",
        ImageSpec.bare "https://cdn/b.jpg"] })]⟩).type = "photo" ∧
    (classify ⟨[("7350", { images := some [ImageSpec.bare "https://cdn/a.jpg",
        ImageSpec.bare "https://cdn/b.jpg"] })]⟩).download_urls
      = [ImageSpec.bare "https://cdn/a.jpg",
         ImageSpec.bare "https://cdn/b.jpg"].map ImageSpec.firstUrl ∧
    (classify ⟨[("7350", { images := some [ImageSpec.bare "https://cdn/a.jpg",
        ImageSpec.bare "https://cdn/b.jpg"] })]⟩).download_urls.length
      = [ImageSpec.bare "https://cdn/a.jpg",
         ImageSpec.bare "https://cdn/b.jpg"].length :=
  classify_photo_shape _ "7350" _ [] _ rfl rfl

/-- C8: normalizing a URL already in canonical desktop form returns it
unchanged, whatever the short-link resolver does. -/
theorem normalize_url_canonical_fixed (resolveShort : Url → Option Url) (u : Url)
    (h : is_canonical_desktop u = true) :
    normalize_url resolveShort u = u := by
  have hh : u.host = desktop_host := by
    simp only [is_canonical_desktop, Bool.and_eq_true, decide_eq_true_eq] at h
    exact h.1.2
  have h1 : ¬ (u.host ∈ short_link_hosts) := by
    rw [hh]
    decide
  have h2 : ¬ (u.host = mobile_host) := by
    rw [hh]
    decide
  simp [normalize_url, h1, h2]

/-- Witness for C8: a concrete canonical desktop URL is a fixed point of
normalization. -/
theorem normalize_url_canonical_fixed_witness :
    normalize_url (fun _ => none)
        ⟨"https", "www.tiktok.com", ["@user", "video", "12345"]⟩
      = ⟨"https", "www.tiktok.com", ["@user", "video", "12345"]⟩ :=
  normalize_url_canonical_fixed (fun _ => none)
    ⟨"https", "www.tiktok.com", ["@user", "video", "12345"]⟩ (by decide)

/-- C9: the stream resolver returns the empty rendition list on any
fetch error or parse error (and, being a total function, never
raises). -/
theorem resolve_empty_on_error (fetchManifest : String → Option String)
    (parseManifest : String → Option ParsedManifest) (manifestUrl : String)
    (h : fetchManifest manifestUrl = none ∨
         ∃ text, fetchManifest manifestUrl = some text ∧ parseManifest text = none) :
    resolve fetchManifest parseManifest manifestUrl = [] := by
  rcases h with h | ⟨t, hf, hp⟩
  · simp [resolve, h]
  · simp [resolve, hf, hp]

/-- Witness for C9: a failing manifest fetch yields the empty rendition
list. -/
theorem resolve_empty_on_error_witness :
    resolve (fun _ => none) (fun _ => none) "https://cdn/v.m3u8" = [] :=
  resolve_empty_on_error (fun _ => none) (fun _ => none) "https://cdn/v.m3u8"
    (Or.inl rfl)

/-- C10: every canonical result produced from a module-map payload
carries all four AuthorInfo fields as plain strings, each equal to the
upstream value when present and to the empty string when absent. -/
theorem classify_author_defaults (p : DesktopPayload) (k : String) (item : ItemStruct)
    (rest : List (String × ItemStruct)) (hmod : p.itemModule = (k, item) :: rest) :
    (classify p).author =
      ⟨item.author.id.getD "", item.author.uniqueId.getD "",
       item.author.nickname.getD "", item.author.avatarUrl.getD ""⟩ := by
  cases himgs : item.images with
  | none => simp [classify, hmod, himgs, normalize_video, mkAuthorInfo]
  | some imgs => simp [classify, hmod, himgs, normalize_photo, mkAuthorInfo]

/-- Witness for C10: absent upstream id and display name become empty
strings; present handle and avatar are kept. -/
theorem classify_author_defaults_witness :
    (classify ⟨[("99", { author := ⟨none, some "handle", none, some "https://cdn/av.jpg"⟩ })]⟩).author
      = ⟨"", "handle", "", "https://cdn/av.jpg"⟩ :=
  classify_author_defaults _ "99"
    { author := ⟨none, some "handle", none, some "https://cdn/av.jpg"⟩ } [] rfl

/-- C6: a batch whose URL list exceeds the cap of 10 is rejected with
the client-side size-limit error, and the rejection happens before any
per-URL pipeline (hence network) work: the outcome does not depend on
the pipeline at all. -/
theorem runBatch_rejects_oversized (pipeline : String → CanonicalResult)
    (urls : List String) (h : BATCH_LIMIT < urls.length) :
    runBatch pipeline urls = .error "Too many URLs" ∧
    (∀ other : String → CanonicalResult, runBatch pipeline urls = runBatch other urls) := by
  constructor
  · simp [runBatch, h]
  · intro other
    simp [runBatch, h]

/-- Witness for C6: a batch of 11 URLs is rejected outright,
independently of the pipeline. -/
theorem runBatch_rejects_oversized_witness :
    runBatch (fun _ => { type := "error" }) (List.replicate 11 "https://vm.tiktok.com/x")
      = .error "Too many URLs" ∧
    (∀ other : String → CanonicalResult,
      runBatch (fun _ => ({ type := "error" } : CanonicalResult))
          (List.replicate 11 "https://vm.tiktok.com/x")
        = runBatch other (List.replicate 11 "https://vm.tiktok.com/x")) :=
  runBatch_rejects_oversized (fun _ => { type := "error" })
    (List.replicate 11 "https://vm.tiktok.com/x") (by decide)

end Extractor
